import Mathlib

/-!
Shallow embedding of the AutoTrader core: order planning (`app/worker.py`),
strategy plays and cooldown context (`app/engine/plays.py`), the risk
evaluator (`app/engine/risk.py`), the relative-volume feature
(`app/engine/features.py`) and the partial-exit pass (`app/worker.py`).

Modelling conventions: Python floats become exact rationals (`ℚ`),
`None`-able values become `Option`, a caught exception becomes an
`Except Unit` input (or an `Option` when the code collapses the exception
to `None`), and environment-variable lookups become explicit, already
parsed parameters (a missing, blank or unparsable variable is `none`,
exactly the fallback behaviour of the source helpers).
-/

namespace AutoTrader

/-- Python `int(x)` applied to a float: truncation toward zero. -/
def pyInt (q : ℚ) : Int := Int.tdiv q.num (q.den : Int)

/-- `statistics.mean` on a list of rationals (callers guard nonemptiness,
exactly as the source guards against `StatisticsError`). -/
def mean (l : List ℚ) : ℚ := l.sum / (l.length : ℚ)

/-- Python `x or d` for an optional float: `None` and `0.0` are falsy and
fall back to the default. -/
def pyOr (x : Option ℚ) (d : ℚ) : ℚ :=
  match x with
  | some v => if v = 0 then d else v
  | none => d

/-- Python `str.upper()` (ASCII case mapping), defined structurally over
the character list so that it evaluates inside the kernel. -/
def pyUpper (s : String) : String := String.mk (s.data.map Char.toUpper)

/-- Python `str.strip()`: drop leading and trailing whitespace. -/
def pyStrip (s : String) : String :=
  String.mk (((s.data.dropWhile Char.isWhitespace).reverse.dropWhile Char.isWhitespace).reverse)

/-- `List`-level split on a separator character (Python `str.split(c)`:
adjacent separators yield empty fields, the empty string yields one
empty field). -/
def splitCharList (c : Char) : List Char → List (List Char)
  | [] => [[]]
  | x :: xs =>
    match splitCharList c xs with
    | [] => [[]]
    | acc :: rest => if x = c then [] :: acc :: rest else (x :: acc) :: rest

/-- Python `s.split(c)` for a one-character separator. -/
def pySplit (c : Char) (s : String) : List String :=
  (splitCharList c s.data).map String.mk

/-- Python `int(s)` for an unsigned decimal string, `none` on failure. -/
def pyToNat (s : String) : Option Nat :=
  if s.data = [] then Option.none
  else
    s.data.foldl
      (fun acc ch =>
        match acc with
        | some n => if ch.isDigit then some (n * 10 + (ch.toNat - 48)) else Option.none
        | Option.none => Option.none)
      (some 0)

/-- The comprehension used for symbol sets in `config`/`risk`/`plays`:
`{s.strip().upper() for s in raw.split(",") if s.strip()}`. -/
def parseSymbolSet (raw : String) : List String :=
  ((pySplit ',' raw).filter (fun t => pyStrip t ≠ "")).map (fun t => pyUpper (pyStrip t))

/-! ## Order planning (`app/worker.py`, `compute_order_plan`) -/

/-- The `OrderPlan` dataclass of `app/worker.py` (the raw `metadata`
passthrough field is omitted: it is returned unchanged and no claim
consults it). -/
structure OrderPlan where
  qty : Int
  entry_price : Option ℚ
  stop_price : Option ℚ
  target1 : Option ℚ
  target2 : Option ℚ
  deriving Repr, DecidableEq

/-- The fields of the signal dict read by `compute_order_plan`; the
metadata entries arrive through `_as_float`, under which `None`, NaN and
unconvertible values all collapse to `none`. -/
structure PlanSignal where
  qty : Option Int
  price : Option ℚ
  entry_price : Option ℚ
  stop_price : Option ℚ
  target1 : Option ℚ
  target2 : Option ℚ
  atr : Option ℚ
  deriving Repr, DecidableEq

/-- The configuration fields consulted by `compute_order_plan`
(`app/config.py`, `Settings`). -/
structure PlanCfg where
  default_qty : Int
  stop_pct : Option ℚ
  tp_pct : Option ℚ
  risk_per_trade_usd : ℚ
  risk_stop_atr_multiplier : ℚ
  target_one_atr_multiplier : ℚ
  target_two_atr_multiplier : ℚ
  deriving Repr, DecidableEq

/-- The dict returned by `symbol_overrides(symbol)` in `app/config.py`:
each key is present only when the corresponding `QTY_<SYM>` / `STOP_<SYM>`
/ `TP_<SYM>` environment variable parses. -/
structure Overrides where
  qty : Option Int
  stop_pct : Option ℚ
  tp_pct : Option ℚ
  deriving Repr, DecidableEq

/-- The environment inputs of `compute_order_plan`: the per-symbol
override dict and the four per-setup `_get_setup_float` lookups
(`RISK_PER_TRADE_<SETUP>` etc.), already parsed. -/
structure PlanEnv where
  overrides : Overrides
  risk_per_trade : Option ℚ
  stop_mult : Option ℚ
  target1_mult : Option ℚ
  target2_mult : Option ℚ
  deriving Repr, DecidableEq

/-- `_get_setup_float(prefix, setup, default)`: the parsed environment
value when present, otherwise the supplied default. -/
def _get_setup_float (envVal : Option ℚ) (dflt : Option ℚ) : Option ℚ :=
  match envVal with
  | some v => some v
  | none => dflt

/-- Line 54: `base_qty = int(sig.get("qty") or cfg.default_qty)` — a
missing or zero (falsy) signal quantity falls back to the default. -/
def base_qty (sig : PlanSignal) (cfg : PlanCfg) : Int :=
  match sig.qty with
  | some q => if q = 0 then cfg.default_qty else q
  | none => cfg.default_qty

/-- Line 58: `overrides.get("stop_pct", cfg.stop_pct)`. -/
def stop_pct_override (cfg : PlanCfg) (env : PlanEnv) : Option ℚ :=
  match env.overrides.stop_pct with
  | some v => some v
  | none => cfg.stop_pct

/-- Line 59: `overrides.get("tp_pct", cfg.tp_pct)`. -/
def tp_pct_override (cfg : PlanCfg) (env : PlanEnv) : Option ℚ :=
  match env.overrides.tp_pct with
  | some v => some v
  | none => cfg.tp_pct

/-- Lines 66-67: the entry price from metadata, else the signal price. -/
def resolved_entry (sig : PlanSignal) : Option ℚ :=
  match sig.entry_price with
  | some e => some e
  | none => sig.price

/-- Lines 69-73: metadata stop price, else percent-off-entry when a stop
percentage is configured, else an ATR multiple below entry. -/
def resolved_stop (sig : PlanSignal) (cfg : PlanCfg) (env : PlanEnv) : Option ℚ :=
  match sig.stop_price, resolved_entry sig with
  | none, some e =>
    (match stop_pct_override cfg env with
     | some sp => some (e * (1 - sp))
     | none =>
       match sig.atr with
       | some a =>
         some (e - pyOr (_get_setup_float env.stop_mult (some cfg.risk_stop_atr_multiplier))
           cfg.risk_stop_atr_multiplier * a)
       | none => none)
  | s, _ => s

/-- Lines 75-79: metadata target1, else percent-above-entry, else an ATR
multiple above entry. -/
def resolved_target1 (sig : PlanSignal) (cfg : PlanCfg) (env : PlanEnv) : Option ℚ :=
  match sig.target1, resolved_entry sig with
  | none, some e =>
    (match tp_pct_override cfg env with
     | some tp => some (e * (1 + tp))
     | none =>
       match sig.atr with
       | some a =>
         some (e + pyOr (_get_setup_float env.target1_mult (some cfg.target_one_atr_multiplier))
           cfg.target_one_atr_multiplier * a)
       | none => none)
  | t, _ => t

/-- Lines 81-85: metadata target2, else an ATR multiple above entry, else
whatever target1 resolved to. -/
def resolved_target2 (sig : PlanSignal) (cfg : PlanCfg) (env : PlanEnv) : Option ℚ :=
  match sig.target2, resolved_entry sig with
  | none, some e =>
    (match sig.atr with
     | some a =>
       some (e + pyOr (_get_setup_float env.target2_mult (some cfg.target_two_atr_multiplier))
         cfg.target_two_atr_multiplier * a)
     | none => resolved_target1 sig cfg env)
  | t, _ => t

/-- `compute_order_plan(sig, cfg)` from `app/worker.py`, lines 44-108,
with the environment lookups passed in explicitly.  The quantity is
computed exactly in the source order: override-or-base floored to 1
(lines 87-88), then overwritten by fixed-risk sizing when
`risk_per_trade` is truthy and entry > stop (lines 90-99). -/
def compute_order_plan (sig : PlanSignal) (cfg : PlanCfg) (env : PlanEnv) : OrderPlan :=
  let risk_per_trade := _get_setup_float env.risk_per_trade (some cfg.risk_per_trade_usd)
  let entry_price := resolved_entry sig
  let stop_price := resolved_stop sig cfg env
  let qty1 : Int := max 1 (match env.overrides.qty with | some q => q | none => base_qty sig cfg)
  let qty2 : Int :=
    match risk_per_trade, entry_price, stop_price with
    | some r, some e, some s =>
      if r ≠ 0 ∧ e > s then
        (if e - s > 0 then max 1 (pyInt (r / (e - s))) else qty1)
      else qty1
    | _, _, _ => qty1
  { qty := qty2
    entry_price := entry_price
    stop_price := stop_price
    target1 := resolved_target1 sig cfg env
    target2 := resolved_target2 sig cfg env }

/-- The predicate used by the qty-precedence theorems: fixed-risk sizing
fires exactly when the resolved risk-per-trade is truthy (nonzero) and
both resolved prices exist with entry strictly above stop
(`app/worker.py` lines 90-97). -/
def risk_sizing_applies (sig : PlanSignal) (cfg : PlanCfg) (env : PlanEnv) : Prop :=
  env.risk_per_trade.getD cfg.risk_per_trade_usd ≠ 0 ∧
    ∃ e s, resolved_entry sig = some e ∧ resolved_stop sig cfg env = some s ∧ e > s

/-! ## Signals and `to_order` (`app/engine/plays.py`) -/

/-- A Python value as it appears inside a signal dict. -/
inductive PyVal where
  | none
  | bool (b : Bool)
  | int (n : Int)
  | rat (q : ℚ)
  | str (s : String)
  deriving Repr, DecidableEq

/-- Dict lookup for the assoc-list model of a Python dict; in a dict
literal later keys overwrite earlier ones, so the last binding wins. -/
def dictGet (l : List (String × PyVal)) (k : String) : Option PyVal :=
  (l.reverse.find? (fun e => e.1 == k)).map (fun e => e.2)

/-- Lift an optional rational into a Python value (`None` for `none`). -/
def pyOptRat : Option ℚ → PyVal
  | some q => .rat q
  | Option.none => .none

/-- The `StrategySignal` dataclass (`app/engine/plays.py`, lines 14-21). -/
structure StrategySignal where
  symbol : String
  setup : String
  side : String
  qty : Int
  order_type : String
  metadata : List (String × PyVal)
  deriving Repr, DecidableEq

/-- `StrategySignal.to_order` (lines 23-31): the five fixed keys followed
by the spread metadata (`**self.metadata`), whose keys would win on
collision. -/
def StrategySignal.to_order (s : StrategySignal) : List (String × PyVal) :=
  [("symbol", .str s.symbol), ("side", .str s.side), ("qty", .int s.qty),
   ("type", .str s.order_type), ("setup", .str s.setup)] ++ s.metadata

/-- `StrategyEngine.generate_signals` (lines 275-295): per configured
symbol the allowed plays run and every emitted signal is appended as
`sig.to_order()`, with no further transformation.  The feature-engine
snapshot, session filtering and play evaluation are abstracted into the
`emitted` input (what the plays emitted per symbol); the claims concern
what happens to an emitted signal on its way into the output list. -/
def generate_signals (symbols : String) (emitted : String → List StrategySignal) :
    List (List (String × PyVal)) :=
  (parseSymbolSet symbols).flatMap (fun sym => (emitted sym).map StrategySignal.to_order)

/-! ## Cooldown context (`app/engine/plays.py`, `StrategyContext`) -/

/-- `StrategyContext.last_signal_ts`, a dict keyed by `"SETUP:SYMBOL"`,
modelled as its lookup function. -/
def Ctx : Type := String → Option ℚ

/-- `StrategyContext._key` (line 40-41). -/
def ctx_key (setup symbol : String) : String :=
  setup ++ ":" ++ pyUpper symbol

/-- `StrategyContext.can_emit` (lines 43-49): a falsy (`None` or `≤ 0`)
cooldown always allows; otherwise allow iff no previous emission or the
elapsed time reached the cooldown. -/
def can_emit (ls : Ctx) (setup symbol : String) (now_ts : ℚ) (cooldown_sec : Option Int) : Bool :=
  match cooldown_sec with
  | Option.none => true
  | some c =>
    if c ≤ 0 then true
    else
      match ls (ctx_key setup symbol) with
      | Option.none => true
      | some last => decide (now_ts - last ≥ (c : ℚ))

/-- `StrategyContext.mark_emit` (lines 51-52). -/
def mark_emit (ls : Ctx) (setup symbol : String) (now_ts : ℚ) : Ctx :=
  fun k => if k = ctx_key setup symbol then some now_ts else ls k

/-! ## VWAP reclaim play (`app/engine/plays.py`, `VWAPReclaimPlay`) -/

/-- The configuration fields consulted by `VWAPReclaimPlay.evaluate`. -/
structure PlaysCfg where
  default_qty : Int
  vwap_cooldown_sec : Int
  vwap_min_rvol : ℚ
  power_hour_symbols : String
  power_hour_start : String
  risk_stop_atr_multiplier : ℚ
  target_one_atr_multiplier : ℚ
  target_two_atr_multiplier : ℚ
  deriving Repr, DecidableEq

/-- The snapshot attributes read by `VWAPReclaimPlay.evaluate`.  (The
play accesses these duck-typed on whatever snapshot object it is given;
note that `atr14` is among them although the `FeatureSnapshot` dataclass
in `app/engine/features.py` does not declare that field — the repo's
tests construct snapshots that carry it.)  `as_of` is the timestamp of
the snapshot datetime; a present datetime is always truthy. -/
structure Snapshot where
  symbol : String
  as_of : Option ℚ
  last_price : Option ℚ
  prev_close : Option ℚ
  vwap : Option ℚ
  ema20 : Option ℚ
  ema50 : Option ℚ
  ema20_slope : Option ℚ
  relative_volume : Option ℚ
  atr14 : Option ℚ
  deriving Repr, DecidableEq

/-- `datetime.strptime(s, "%H:%M").time()` as minutes after midnight;
`none` when parsing raises `ValueError`. -/
def parseHM (s : String) : Option Nat :=
  match pySplit ':' s with
  | [hh, mm] =>
    (match pyToNat hh, pyToNat mm with
     | some h, some m => if h ≤ 23 ∧ m ≤ 59 then some (h * 60 + m) else Option.none
     | _, _ => Option.none)
  | _ => Option.none

/-- Line 121: block when both EMAs are present and the fast one is not
above the slow one. -/
def ema_filter_blocks (s : Snapshot) : Bool :=
  match s.ema20, s.ema50 with
  | some e20, some e50 => decide (e20 ≤ e50)
  | _, _ => false

/-- Line 123: block when the EMA20 slope is present and nonpositive. -/
def slope_blocks (s : Snapshot) : Bool :=
  match s.ema20_slope with
  | some sl => decide (sl ≤ 0)
  | Option.none => false

/-- Line 127: block when relative volume is present and below the
configured minimum. -/
def rvol_blocks (cfg : PlaysCfg) (s : Snapshot) : Bool :=
  match s.relative_volume with
  | some rv => decide (rv < cfg.vwap_min_rvol)
  | Option.none => false

/-- `VWAPReclaimPlay.evaluate` (`app/engine/plays.py`, lines 108-174).
`now_fallback` stands for `time.time()` (used only when the snapshot has
no timestamp) and `now_et` for the New-York wall-clock time in minutes
used by the power-hour gate.  Returns the emitted signals together with
the resulting cooldown context (the only mutation the play performs). -/
def vwap_reclaim_evaluate (cfg : PlaysCfg) (snapshot : Snapshot) (ctx : Ctx)
    (now_fallback : ℚ) (now_et : ℚ) : List StrategySignal × Ctx :=
  match snapshot.last_price, snapshot.prev_close, snapshot.vwap with
  | some last, some prev, some vwap =>
    if ¬(prev < vwap ∧ last > vwap) then ([], ctx)
    else if ema_filter_blocks snapshot then ([], ctx)
    else if slope_blocks snapshot then ([], ctx)
    else if rvol_blocks cfg snapshot then ([], ctx)
    else
      let now_ts : ℚ := match snapshot.as_of with
        | some t => t
        | Option.none => now_fallback
      if can_emit ctx "VWAP_RECLAIM" snapshot.symbol now_ts (some cfg.vwap_cooldown_sec) = false
      then ([], ctx)
      else
        let power_syms := parseSymbolSet cfg.power_hour_symbols
        if power_syms ≠ [] ∧ pyUpper snapshot.symbol ∈ power_syms ∧
            now_et < (((parseHM cfg.power_hour_start).getD 900 : Nat) : ℚ) then ([], ctx)
        else
          let ctx1 := mark_emit ctx "VWAP_RECLAIM" snapshot.symbol now_ts
          let delta_above : Option ℚ := if vwap = 0 then Option.none else some ((last - vwap) / vwap)
          let stop_price : Option ℚ := match snapshot.atr14 with
            | some a => if a = 0 then Option.none else some (last - cfg.risk_stop_atr_multiplier * a)
            | Option.none => Option.none
          let target1 : Option ℚ := match snapshot.atr14 with
            | some a => if a = 0 then Option.none else some (last + cfg.target_one_atr_multiplier * a)
            | Option.none => Option.none
          let target2 : Option ℚ := match snapshot.atr14 with
            | some a => if a = 0 then Option.none else some (last + cfg.target_two_atr_multiplier * a)
            | Option.none => Option.none
          let md : List (String × PyVal) :=
            [("reason", .str "vwap_reclaim"), ("vwap", .rat vwap), ("last_price", .rat last),
             ("prev_close", .rat prev), ("delta_above_vwap", pyOptRat delta_above),
             ("relative_volume", pyOptRat snapshot.relative_volume),
             ("ema20", pyOptRat snapshot.ema20), ("ema50", pyOptRat snapshot.ema50),
             ("power_hour", .bool (decide (pyUpper snapshot.symbol ∈ power_syms))),
             ("entry_price", .rat last), ("stop_price", pyOptRat stop_price),
             ("target1", pyOptRat target1), ("target2", pyOptRat target2),
             ("atr", pyOptRat snapshot.atr14)]
          ([{ symbol := snapshot.symbol, setup := "VWAP_RECLAIM", side := "buy",
              qty := cfg.default_qty, order_type := "market", metadata := md }], ctx1)
  | _, _, _ => ([], ctx)

/-! ## Risk evaluator (`app/engine/risk.py`) -/

/-- A block reason, one constructor per `reasons.append` site in
`evaluate`; the formatted message text is presentation only. -/
inductive Reason where
  | outsideWindow (win_start win_end : Nat)
  | blacklisted
  | notWhitelisted
  | maxConcurrent (cap : Int)
  | maxOpenOrders (cap : Int)
  | maxPerSymbol (sym : String) (cap : Int)
  | notionalExceeds (notional cap : ℚ)
  | cashBelowMin (min_cash : ℚ)
  deriving Repr, DecidableEq

/-- The configuration fields consulted by `risk.evaluate`; the trading
window ends are already-parsed `HH:MM` values in minutes after
midnight. -/
structure RiskCfg where
  trading_window_start : Nat
  trading_window_end : Nat
  symbol_blacklist : String
  symbol_whitelist : String
  risk_max_concurrent : Int
  risk_max_open_orders : Int
  risk_max_positions_per_symbol : Option Int
  risk_max_order_notional_usd : Option ℚ
  min_cash_usd : Option ℚ
  tradier_account_id : String
  deriving Repr, DecidableEq

/-- One broker position dict: only the `symbol` and `quantity` keys are
consulted. -/
structure PortfolioPosition where
  symbol : Option String
  quantity : Option ℚ
  deriving Repr, DecidableEq

/-- The signal fields consulted by `risk.evaluate`. -/
structure RiskSignal where
  symbol : Option String
  qty : Option Int
  deriving Repr, DecidableEq

/-- The external inputs of one `risk.evaluate` call.  `now_minutes` is
the New-York time of day in minutes (fractional seconds allowed);
`session_window` / `window_env` are the already-applied session and
`WINDOW_<SYM>` overrides (`none` = absent, unparsable, or a raised and
swallowed exception); `notional_env` is the parsed `NOTIONAL_<SYM>`
value; the three fetches model the broker calls, `Except.error` being a
raised-and-caught exception, while `last_trade`/`quote_last` collapse
the price-fetch exceptions to `none` exactly as the source does (a
quote of `0` also becomes `none` via `... or None`). -/
structure RiskFetch where
  now_minutes : ℚ
  session_window : Option (Nat × Nat)
  window_env : Option (Nat × Nat)
  notional_env : Option ℚ
  positions_fetch : Except Unit (List PortfolioPosition)
  orders_fetch : Except Unit Nat
  last_trade : Option ℚ
  quote_last : Option ℚ
  balance_fetch : Except Unit (Option ℚ)

/-- `portfolio_snapshot` (`app/engine/risk.py`, lines 22-45): without an
account id both parts are empty; a raised exception in either fetch
degrades that part to empty.  Only the length of the open-orders list is
ever consulted, so it is modelled as a count. -/
def portfolio_snapshot (acct : String) (positions_fetch : Except Unit (List PortfolioPosition))
    (orders_fetch : Except Unit Nat) : List PortfolioPosition × Nat :=
  if acct = "" then ([], 0)
  else
    ((match positions_fetch with | .ok l => l | .error _ => []),
     (match orders_fetch with | .ok _n => _n | .error _ => 0))

/-- Lines 57-75: `WINDOW_<SYM>` wins, else the active session window,
else the configured trading window. -/
def effective_window (cfg : RiskCfg) (f : RiskFetch) : Nat × Nat :=
  match f.window_env with
  | some w => w
  | Option.none =>
    match f.session_window with
    | some w => w
    | Option.none => (cfg.trading_window_start, cfg.trading_window_end)

/-- `_time_in_window` (lines 13-19): `start <= now <= end`. -/
def time_in_window (now : ℚ) (w : Nat × Nat) : Bool :=
  decide ((w.1 : ℚ) ≤ now ∧ now ≤ (w.2 : ℚ))

/-- Line 76-77. -/
def window_reasons (cfg : RiskCfg) (f : RiskFetch) : List Reason :=
  let w := effective_window cfg f
  if time_in_window f.now_minutes w then [] else [.outsideWindow w.1 w.2]

/-- Lines 80-83. -/
def blacklist_reasons (cfg : RiskCfg) (sym : String) : List Reason :=
  if cfg.symbol_blacklist ≠ "" ∧ sym ∈ parseSymbolSet cfg.symbol_blacklist
  then [.blacklisted] else []

/-- Lines 84-87. -/
def whitelist_reasons (cfg : RiskCfg) (sym : String) : List Reason :=
  if cfg.symbol_whitelist ≠ "" ∧ sym ∉ parseSymbolSet cfg.symbol_whitelist
  then [.notWhitelisted] else []

/-- Line 90: positions with a nonzero (after `or 0`) quantity. -/
def open_positions (positions : List PortfolioPosition) : List PortfolioPosition :=
  positions.filter (fun p => p.quantity.getD 0 ≠ 0)

/-- Lines 94-95. -/
def concurrency_reasons (cfg : RiskCfg) (open_pos : List PortfolioPosition) : List Reason :=
  if (open_pos.length : Int) ≥ cfg.risk_max_concurrent
  then [.maxConcurrent cfg.risk_max_concurrent] else []

/-- Lines 96-97. -/
def open_orders_reasons (cfg : RiskCfg) (count : Nat) : List Reason :=
  if (count : Int) ≥ cfg.risk_max_open_orders
  then [.maxOpenOrders cfg.risk_max_open_orders] else []

/-- Lines 100-104. -/
def per_symbol_reasons (cfg : RiskCfg) (open_pos : List PortfolioPosition) (sym : String) :
    List Reason :=
  match cfg.risk_max_positions_per_symbol with
  | some m =>
    if m > 0 ∧
        (((open_pos.filter (fun p => pyUpper (p.symbol.getD "") == sym)).length : Int) ≥ m)
    then [.maxPerSymbol sym m] else []
  | Option.none => []

/-- Lines 108-115: the per-symbol notional cap override, else the
configured cap. -/
def resolved_cap (cfg : RiskCfg) (f : RiskFetch) : Option ℚ :=
  match f.notional_env with
  | some c => some c
  | Option.none => cfg.risk_max_order_notional_usd

/-- Lines 117-129: last-trade price, else the quote fallback. -/
def resolved_price (f : RiskFetch) : Option ℚ :=
  match f.last_trade with
  | some p => some p
  | Option.none => f.quote_last

/-- Lines 116-134: the notional check runs only with a cap and a truthy
resolved price. -/
def notional_reasons (cfg : RiskCfg) (sig : RiskSignal) (f : RiskFetch) : List Reason :=
  match resolved_cap cfg f with
  | Option.none => []
  | some cap =>
    match resolved_price f with
    | Option.none => []
    | some price =>
      if price = 0 then []
      else
        let notional := price * ((sig.qty.getD 0 : Int) : ℚ)
        if notional > cap then [.notionalExceeds notional cap] else []

/-- Lines 137-144: the minimum-cash check; any exception during the
balance fetch is swallowed. -/
def cash_reasons (cfg : RiskCfg) (f : RiskFetch) : List Reason :=
  match cfg.min_cash_usd with
  | Option.none => []
  | some mc =>
    if cfg.tradier_account_id ≠ "" then
      match f.balance_fetch with
      | .ok (some cash) => if cash < mc then [.cashBelowMin mc] else []
      | _ => []
    else []

/-- `risk.evaluate` (`app/engine/risk.py`, lines 48-146): all checks run
unconditionally and their reasons accumulate; the pass flag is exactly
emptiness of the accumulated list. -/
def evaluate (cfg : RiskCfg) (sig : RiskSignal) (f : RiskFetch) : Bool × List Reason :=
  let sym := pyUpper (sig.symbol.getD "")
  let snap := portfolio_snapshot cfg.tradier_account_id f.positions_fetch f.orders_fetch
  let open_pos := open_positions snap.1
  let reasons :=
    window_reasons cfg f ++ blacklist_reasons cfg sym ++ whitelist_reasons cfg sym ++
    concurrency_reasons cfg open_pos ++ open_orders_reasons cfg snap.2 ++
    per_symbol_reasons cfg open_pos sym ++ notional_reasons cfg sig f ++ cash_reasons cfg f
  (reasons.isEmpty, reasons)

/-! ## Partial-exit pass (`app/worker.py`, `partial_exit_pass`) -/

/-- The tracked per-symbol trade state fields read or written by
`partial_exit_pass`. -/
structure TradeState where
  qty : Option Int
  entry_price : Option ℚ
  stop_price : Option ℚ
  target1 : Option ℚ
  target2 : Option ℚ
  entry_ts : Option ℚ
  partial_exited : Bool
  deriving Repr, DecidableEq

/-- One exit submission performed by `_execute_exit_order`. -/
structure ExitOrder where
  symbol : String
  qty : Int
  reason : String
  deriving Repr, DecidableEq

/-- The configuration fields consulted by `partial_exit_pass`. -/
structure PassCfg where
  dry_run : Bool
  partial_exit_pct : ℚ
  trade_timeout_min : Int
  deriving Repr, DecidableEq

/-- `_execute_exit_order` (lines 202-219): nothing is submitted for a
nonpositive quantity. -/
def _execute_exit_order (symbol : String) (qty : Int) (reason : String) : Option ExitOrder :=
  if qty ≤ 0 then Option.none else some { symbol := symbol, qty := qty, reason := reason }

/-- Line 416: the dict `{sym.upper(): float(quantity or 0)}` built from
the portfolio snapshot; on duplicate symbols the last entry wins, a
missing symbol reads as `0.0`. -/
def position_qty (positions : List PortfolioPosition) (sym : String) : ℚ :=
  match positions.reverse.find? (fun p => pyUpper (p.symbol.getD "") == sym) with
  | some p => p.quantity.getD 0
  | Option.none => 0

/-- The registry effect of one loop iteration: `updated` is the in-place
mutation of the state dict stored under the iterated key (partial-exit
branch), `removed` records a `cleanup_trade(sym_up)` call. -/
structure ItemEffect where
  updated : Option TradeState
  removed : Bool
  deriving Repr, DecidableEq

/-- The body of the `for sym, state in list(_ACTIVE_TRADES.items())`
loop (`app/worker.py`, lines 420-456), as a function of one item. -/
def process_item (cfg : PassCfg) (positions : List PortfolioPosition)
    (priceOf : String → Option ℚ) (now : ℚ) (k : String) (s : TradeState) :
    ItemEffect × List ExitOrder :=
  let sym_up := pyUpper k
  let orig_qty : Int := s.qty.getD 0
  let pos_qty : ℚ := position_qty positions sym_up
  if pos_qty ≤ 0 ∧ ¬cfg.dry_run then ({ updated := Option.none, removed := true }, [])
  else
    match priceOf sym_up with
    | Option.none => ({ updated := Option.none, removed := false }, [])
    | some price =>
      let entry_ts : ℚ := match s.entry_ts with
        | some t => if t = 0 then now else t
        | Option.none => now
      let fire_partial_exit : Bool :=
        ¬s.partial_exited &&
          (match s.target1 with | some t1 => decide (price ≥ t1) | Option.none => false)
      let upd : Option TradeState :=
        if fire_partial_exit then
          some { s with partial_exited := true,
                        stop_price := match s.entry_price with
                          | some e => some (max (s.stop_price.getD 0) e)
                          | Option.none => s.stop_price }
        else Option.none
      let orders1 : List ExitOrder :=
        if fire_partial_exit then
          (let qty_a : Int := max 1 (pyInt (max (orig_qty : ℚ) pos_qty * cfg.partial_exit_pct))
           let qty_to_sell : Int := min (if cfg.dry_run then orig_qty else pyInt pos_qty) qty_a
           (_execute_exit_order sym_up qty_to_sell "partial_target").toList)
        else []
      if (match s.target2 with | some t2 => decide (price ≥ t2) | Option.none => false) then
        ({ updated := upd, removed := true },
         orders1 ++ (_execute_exit_order sym_up
           (if cfg.dry_run then orig_qty else pyInt pos_qty) "final_target").toList)
      else if cfg.trade_timeout_min > 0 ∧ now - entry_ts > (cfg.trade_timeout_min : ℚ) * 60 then
        ({ updated := upd, removed := true },
         orders1 ++ (_execute_exit_order sym_up
           (if cfg.dry_run then orig_qty else pyInt pos_qty) "timeout_exit").toList)
      else ({ updated := upd, removed := false }, orders1)

/-- `_ACTIVE_TRADES.pop(sym, ...)`-style removal (all entries with the
key; dict keys are unique). -/
def registry_remove (reg : List (String × TradeState)) (k : String) :
    List (String × TradeState) :=
  reg.filter (fun e => e.1 ≠ k)

/-- The in-place mutation of the state dict stored under key `k`. -/
def registry_set (reg : List (String × TradeState)) (k : String) (s : TradeState) :
    List (String × TradeState) :=
  reg.map (fun e => if e.1 = k then (k, s) else e)

/-- Dict lookup on the registry model (keys are unique in a Python
dict, so the first match is the binding). -/
def registry_lookup (reg : List (String × TradeState)) (k : String) : Option TradeState :=
  match reg with
  | [] => Option.none
  | e :: rest => if e.1 = k then some e.2 else registry_lookup rest k

/-- Apply one iteration's registry effect: the in-place state mutation
targets the iterated key, a cleanup removes the upper-cased key. -/
def apply_item_effect (reg : List (String × TradeState)) (k : String) (eff : ItemEffect) :
    List (String × TradeState) :=
  let reg1 := match eff.updated with
    | some s1 => registry_set reg k s1
    | Option.none => reg
  if eff.removed then registry_remove reg1 (pyUpper k) else reg1

/-- One fold step of the pass: thread the registry and append the
iteration's exit orders. -/
def partial_exit_step (cfg : PassCfg) (positions : List PortfolioPosition)
    (priceOf : String → Option ℚ) (now : ℚ)
    (acc : List (String × TradeState) × List ExitOrder) (item : String × TradeState) :
    List (String × TradeState) × List ExitOrder :=
  let r := process_item cfg positions priceOf now item.1 item.2
  (apply_item_effect acc.1 item.1 r.1, acc.2 ++ r.2)

/-- `partial_exit_pass` (`app/worker.py`, lines 411-456): iterate over a
snapshot of the registry items, producing the final registry and the
exit orders submitted during the pass.  `positions` is the portfolio
snapshot (already degraded to `[]` on a fetch failure inside
`risk.portfolio_snapshot`), `priceOf` the per-symbol price lookup. -/
def partial_exit_pass (cfg : PassCfg) (positions : List PortfolioPosition)
    (priceOf : String → Option ℚ) (now : ℚ) (trades : List (String × TradeState)) :
    List (String × TradeState) × List ExitOrder :=
  if trades.isEmpty then (trades, [])
  else trades.foldl (partial_exit_step cfg positions priceOf now) (trades, [])

/-! ## Relative volume (`app/engine/features.py`) -/

/-- `_compute_relative_volume(volumes, lookback=30)` (lines 122-131). -/
def _compute_relative_volume (volumes : List ℚ) (lookback : Nat := 30) : Option ℚ :=
  if volumes.length < lookback then Option.none
  else
    let recent := volumes.drop (volumes.length - lookback)
    if recent.isEmpty then Option.none
    else
      let average :=
        if volumes.length > lookback then mean (volumes.take (volumes.length - lookback))
        else mean volumes
      if average = 0 then Option.none else some (mean recent / average)

/-! ## Concrete fixtures (the test vectors used by the closed theorems) -/

/-- The signal of `test_compute_order_plan_risk_sizing`: entry 100, stop
98 in metadata, signal qty 1. -/
def sigFix1 : PlanSignal :=
  { qty := some 1, price := Option.none, entry_price := some 100, stop_price := some 98,
    target1 := some 102, target2 := some 104, atr := Option.none }

/-- The configuration of `test_compute_order_plan_risk_sizing`:
`risk_per_trade_usd = 200`. -/
def cfgFix1 : PlanCfg :=
  { default_qty := 1, stop_pct := Option.none, tp_pct := Option.none, risk_per_trade_usd := 200,
    risk_stop_atr_multiplier := 6/5, target_one_atr_multiplier := 1, target_two_atr_multiplier := 2 }

/-- A per-symbol quantity override of 3 (`QTY_<SYM>=3`), nothing else. -/
def envFix3 : PlanEnv :=
  { overrides := { qty := some 3, stop_pct := Option.none, tp_pct := Option.none },
    risk_per_trade := Option.none, stop_mult := Option.none, target1_mult := Option.none,
    target2_mult := Option.none }

/-- The dummy play emission of `test_symbol_execution_map` (a signal for
source symbol SPX while `SYMBOL_EXECUTION_MAP=SPX:SPY` maps it to SPY). -/
def dummySignal : StrategySignal :=
  { symbol := "SPX", setup := "DUMMY", side := "buy", qty := 1, order_type := "market",
    metadata := [("entry_price", .rat 100)] }

/-- A benign risk configuration: window 09:31-15:55, no symbol lists,
caps 3 positions / 5 orders / 1 per symbol, notional cap 500 USD. -/
def rcfgFix : RiskCfg :=
  { trading_window_start := 571, trading_window_end := 955, symbol_blacklist := "",
    symbol_whitelist := "", risk_max_concurrent := 3, risk_max_open_orders := 5,
    risk_max_positions_per_symbol := some 1, risk_max_order_notional_usd := some 500,
    min_cash_usd := Option.none, tradier_account_id := "ACCT" }

/-- `rcfgFix` restricted by a whitelist that excludes AAPL. -/
def rcfgWl : RiskCfg := { rcfgFix with symbol_whitelist := "MSFT" }

/-- `rcfgFix` with `RISK_MAX_CONCURRENT=0` and a minimum-cash rule. -/
def rcfgCapZero : RiskCfg := { rcfgFix with risk_max_concurrent := 0, min_cash_usd := some 1000 }

/-- Healthy fetches at 10:00 New York: empty portfolio, last trade 1. -/
def rfFix1 : RiskFetch :=
  { now_minutes := 600, session_window := Option.none, window_env := Option.none,
    notional_env := Option.none, positions_fetch := .ok [], orders_fetch := .ok 0,
    last_trade := some 1, quote_last := Option.none, balance_fetch := .ok Option.none }

/-- As `rfFix1` with a last-trade price of 2. -/
def rfFix2 : RiskFetch := { rfFix1 with last_trade := some 2 }

/-- Every broker fetch raises. -/
def rfFixFail : RiskFetch :=
  { now_minutes := 600, session_window := Option.none, window_env := Option.none,
    notional_env := Option.none, positions_fetch := .error (), orders_fetch := .error (),
    last_trade := Option.none, quote_last := Option.none, balance_fetch := .error () }

/-- An AAPL buy of 600 shares / of 100 shares. -/
def sig600 : RiskSignal := { symbol := some "AAPL", qty := some 600 }

/-- See `sig600`. -/
def sig100 : RiskSignal := { symbol := some "AAPL", qty := some 100 }

/-- An integral-valued play configuration: min rvol 1, cooldown 60 s,
no power-hour symbols, stop multiplier 2, target multipliers 1 and 3. -/
def pcfgFix : PlaysCfg :=
  { default_qty := 2, vwap_cooldown_sec := 60, vwap_min_rvol := 1, power_hour_symbols := "",
    power_hour_start := "15:00", risk_stop_atr_multiplier := 2, target_one_atr_multiplier := 1,
    target_two_atr_multiplier := 3 }

/-- A reclaim snapshot: prev 99 < vwap 100 < last 101, EMA20 102 > EMA50
100, positive slope, rvol 2, ATR 1. -/
def snapFix : Snapshot :=
  { symbol := "AAPL", as_of := some 1000, last_price := some 101, prev_close := some 99,
    vwap := some 100, ema20 := some 102, ema50 := some 100, ema20_slope := some 1,
    relative_volume := some 2, atr14 := some 1 }

/-- As `snapFix` but with an available ATR of exactly 0. -/
def snapAtrZero : Snapshot := { snapFix with atr14 := some 0 }

/-- A cooldown context with no prior emissions. -/
def ctxEmpty : Ctx := fun _ => Option.none

/-- A live (non-dry-run) pass configuration: sell half at target1,
45-minute timeout. -/
def passCfgLive : PassCfg := { dry_run := false, partial_exit_pct := 1/2, trade_timeout_min := 45 }

/-- A tracked trade that has already taken its partial exit. -/
def tradeFixDone : TradeState :=
  { qty := some 10, entry_price := some 100, stop_price := some 98, target1 := some 102,
    target2 := some 200, entry_ts := some 1000, partial_exited := true }

/-- As `tradeFixDone` before any partial exit. -/
def tradeFixFresh : TradeState := { tradeFixDone with partial_exited := false }

/-- A broker snapshot holding 10 shares of AAPL. -/
def posAAPL : List PortfolioPosition := [{ symbol := some "AAPL", quantity := some 10 }]

end AutoTrader

namespace AutoTrader

/-! ## Helper lemmas -/

theorem _get_setup_float_some (x : Option ℚ) (d : ℚ) :
    _get_setup_float x (some d) = some (x.getD d) := by
  cases x <;> rfl

theorem compute_order_plan_qty_def (sig : PlanSignal) (cfg : PlanCfg) (env : PlanEnv) :
    (compute_order_plan sig cfg env).qty =
      (match _get_setup_float env.risk_per_trade (some cfg.risk_per_trade_usd),
             resolved_entry sig, resolved_stop sig cfg env with
       | some r, some e, some s =>
         if r ≠ 0 ∧ e > s then
           (if e - s > 0 then
              max 1 (pyInt (r / (e - s)))
            else max 1 (match env.overrides.qty with
                        | some q => q
                        | Option.none => base_qty sig cfg))
         else max 1 (match env.overrides.qty with
                     | some q => q
                     | Option.none => base_qty sig cfg)
       | _, _, _ =>
         max 1 (match env.overrides.qty with
                | some q => q
                | Option.none => base_qty sig cfg)) := rfl

/-! ## C1 -/

/-- C1 counterexample: with the per-symbol quantity override `QTY=3`
present and fixed-risk sizing configured (200 USD risk, entry 100, stop
98), `compute_order_plan` returns qty 100 — the risk-sizing quantity —
not the override 3 that the claim's precedence order predicts. -/
theorem compute_order_plan_override_loses_to_risk_sizing :
    envFix3.overrides.qty = some 3 ∧
    (compute_order_plan sigFix1 cfgFix1 envFix3).qty = 100 ∧
    (compute_order_plan sigFix1 cfgFix1 envFix3).qty ≠ max 1 3 := by
  refine ⟨rfl, ?_, ?_⟩ <;>
    norm_num [compute_order_plan, resolved_entry, resolved_stop, _get_setup_float, pyInt,
      sigFix1, cfgFix1, envFix3]

/-- C1 (amended): fixed-risk sizing takes precedence over the per-symbol
quantity override.  When the resolved risk-per-trade is nonzero and the
resolved entry price strictly exceeds the resolved stop price, the plan
quantity is `max 1 (trunc (risk / (entry - stop)))` regardless of any
override; only otherwise does the override (floored to at least 1) win,
falling back to the signal-provided / default quantity (floored to at
least 1). -/
theorem compute_order_plan_qty_precedence (sig : PlanSignal) (cfg : PlanCfg) (env : PlanEnv) :
    (∀ e s, resolved_entry sig = some e → resolved_stop sig cfg env = some s →
      env.risk_per_trade.getD cfg.risk_per_trade_usd ≠ 0 → e > s →
      (compute_order_plan sig cfg env).qty =
        max 1 (pyInt (env.risk_per_trade.getD cfg.risk_per_trade_usd / (e - s))))
    ∧ (¬ risk_sizing_applies sig cfg env →
      (compute_order_plan sig cfg env).qty =
        max 1 (match env.overrides.qty with | some q => q | Option.none => base_qty sig cfg)) := by
  constructor
  · intro e s he hs hr hgt
    rw [compute_order_plan_qty_def, _get_setup_float_some]
    simp only [he, hs]
    rw [if_pos ⟨hr, hgt⟩, if_pos (sub_pos.mpr hgt)]
  · intro hnot
    rw [compute_order_plan_qty_def, _get_setup_float_some]
    rcases h1 : resolved_entry sig with _ | e
    · simp
    · rcases h2 : resolved_stop sig cfg env with _ | s
      · simp
      · simp only []
        have hneg : ¬(env.risk_per_trade.getD cfg.risk_per_trade_usd ≠ 0 ∧ e > s) := by
          rintro ⟨ha, hb⟩
          exact hnot ⟨ha, e, s, h1, h2, hb⟩
        rw [if_neg hneg]

/-- C1 witness: the precedence theorem applied at the risk-sizing test
vector with an override of 3 in place. -/
theorem compute_order_plan_qty_precedence_witness :
    (compute_order_plan sigFix1 cfgFix1 envFix3).qty =
      max 1 (pyInt (envFix3.risk_per_trade.getD cfgFix1.risk_per_trade_usd / (100 - 98))) :=
  (compute_order_plan_qty_precedence sigFix1 cfgFix1 envFix3).1 100 98 rfl rfl
    (by decide) (by decide)

/-! ## C10 -/

/-- C10: every order plan carries a quantity of at least 1, whatever the
signal quantity, override or risk-sizing configuration. -/
theorem compute_order_plan_qty_at_least_one (sig : PlanSignal) (cfg : PlanCfg) (env : PlanEnv) :
    1 ≤ (compute_order_plan sig cfg env).qty := by
  rw [compute_order_plan_qty_def, _get_setup_float_some]
  rcases resolved_entry sig with _ | e
  · exact le_max_left 1 _
  · rcases resolved_stop sig cfg env with _ | s
    · exact le_max_left 1 _
    · simp only []
      split_ifs <;> exact le_max_left 1 _

/-! ## C2 -/

/-- C2: at the failing input of `test_symbol_execution_map` (symbols
"SPX", execution map SPX→SPY, one dummy signal emitted for SPX),
`generate_signals` returns the signal's `to_order()` dict unchanged: the
symbol stays "SPX" (not the execution symbol "SPY"), and the output dict
has neither a `source_symbol` nor a `metadata` key — no execution-symbol
remapping exists on this code path. -/
theorem generate_signals_no_execution_mapping :
    generate_signals "SPX" (fun _ => [dummySignal]) =
      [[("symbol", .str "SPX"), ("side", .str "buy"), ("qty", .int 1),
        ("type", .str "market"), ("setup", .str "DUMMY"), ("entry_price", .rat 100)]] ∧
    dictGet dummySignal.to_order "symbol" = some (.str "SPX") ∧
    dictGet dummySignal.to_order "source_symbol" = Option.none ∧
    dictGet dummySignal.to_order "metadata" = Option.none := by
  refine ⟨by decide, by decide, by decide, by decide⟩

/-! ## C9 -/

/-- C9 counterexample: on a series of exactly 30 bars (all volume 1) the
relative volume is `1`, not null — with no preceding bars the code
divides by the mean of the whole series instead of returning null. -/
theorem relative_volume_exactly_thirty_not_null :
    _compute_relative_volume (List.replicate 30 1) = some 1 ∧
    _compute_relative_volume (List.replicate 30 1) ≠ Option.none := by
  have h : _compute_relative_volume (List.replicate 30 1) = some 1 := by
    norm_num [_compute_relative_volume, mean]
  exact ⟨h, by rw [h]; simp⟩

/-- C9 (amended): fewer than 30 bars gives null; more than 30 bars gives
mean of the last 30 over the mean of the preceding bars (null when that
mean is 0); exactly 30 bars divides by the mean of the whole series, so
the result is 1 (or null when all volumes sum to 0), not null. -/
theorem relative_volume_characterization (volumes : List ℚ) :
    _compute_relative_volume volumes =
      (if volumes.length < 30 then Option.none
       else if volumes.length = 30 then (if mean volumes = 0 then Option.none else some 1)
       else if mean (volumes.take (volumes.length - 30)) = 0 then Option.none
       else some (mean (volumes.drop (volumes.length - 30)) /
         mean (volumes.take (volumes.length - 30)))) := by
  unfold _compute_relative_volume
  by_cases h30 : volumes.length < 30
  · simp [h30]
  · rcases Nat.lt_or_ge 30 volumes.length with hgt | hge
    · have hne : volumes.length ≠ 30 := by omega
      have hlen : (volumes.drop (volumes.length - 30)).length = 30 := by
        rw [List.length_drop]; omega
      have hemp : (volumes.drop (volumes.length - 30)).isEmpty = false := by
        rcases h : volumes.drop (volumes.length - 30) with _ | ⟨a, l⟩
        · rw [h] at hlen; simp at hlen
        · rfl
      simp [h30, hne, hgt, hemp]
    · have h30eq : volumes.length = 30 := by omega
      have hvne : volumes ≠ [] := by
        intro h
        rw [h] at h30eq; simp at h30eq
      have hemp : volumes.isEmpty = false := by
        rcases h : volumes with _ | ⟨a, l⟩
        · exact absurd h hvne
        · rfl
      have hngt : ¬ volumes.length > 30 := by omega
      have hdrop : volumes.drop (volumes.length - 30) = volumes := by
        rw [h30eq]; simp
      rw [if_neg h30, hdrop]
      simp only [hemp, Bool.false_eq_true, if_false, if_neg hngt, if_pos h30eq]
      by_cases hm : mean volumes = 0
      · simp [hm]
      · simp [hm, div_self hm]
        omega

/-! ## C3 / C4 helper lemmas -/

theorem notional_not_mem_window (cfg : RiskCfg) (f : RiskFetch) (n c : ℚ) :
    Reason.notionalExceeds n c ∉ window_reasons cfg f := by
  unfold window_reasons
  dsimp only
  split <;> simp

theorem notional_not_mem_blacklist (cfg : RiskCfg) (sym : String) (n c : ℚ) :
    Reason.notionalExceeds n c ∉ blacklist_reasons cfg sym := by
  unfold blacklist_reasons
  split <;> simp

theorem notional_not_mem_whitelist (cfg : RiskCfg) (sym : String) (n c : ℚ) :
    Reason.notionalExceeds n c ∉ whitelist_reasons cfg sym := by
  unfold whitelist_reasons
  split <;> simp

theorem notional_not_mem_concurrency (cfg : RiskCfg) (l : List PortfolioPosition) (n c : ℚ) :
    Reason.notionalExceeds n c ∉ concurrency_reasons cfg l := by
  unfold concurrency_reasons
  split <;> simp

theorem notional_not_mem_open_orders (cfg : RiskCfg) (k : Nat) (n c : ℚ) :
    Reason.notionalExceeds n c ∉ open_orders_reasons cfg k := by
  unfold open_orders_reasons
  split <;> simp

theorem notional_not_mem_per_symbol (cfg : RiskCfg) (l : List PortfolioPosition) (sym : String)
    (n c : ℚ) : Reason.notionalExceeds n c ∉ per_symbol_reasons cfg l sym := by
  unfold per_symbol_reasons
  split
  · split <;> simp
  · simp

theorem notional_not_mem_cash (cfg : RiskCfg) (f : RiskFetch) (n c : ℚ) :
    Reason.notionalExceeds n c ∉ cash_reasons cfg f := by
  unfold cash_reasons
  split
  · simp
  · split
    · split
      · split <;> simp
      · simp
    · simp

theorem mem_notional_reasons_iff (cfg : RiskCfg) (sig : RiskSignal) (f : RiskFetch) (n c : ℚ) :
    Reason.notionalExceeds n c ∈ notional_reasons cfg sig f ↔
      (resolved_cap cfg f = some c ∧ ∃ p, resolved_price f = some p ∧ p ≠ 0 ∧
        n = p * ((sig.qty.getD 0 : Int) : ℚ) ∧ n > c) := by
  unfold notional_reasons
  rcases hcap : resolved_cap cfg f with _ | cap
  · simp
  · rcases hp : resolved_price f with _ | p
    · simp
    · dsimp only
      by_cases hp0 : p = 0
      · simp [hp0]
      · by_cases hn : p * ((sig.qty.getD 0 : Int) : ℚ) > cap
        · simp [hp0, hn]
          aesop
        · simp [hp0, hn]
          aesop

/-- The reasons list of `evaluate` is the concatenation of the eight
independent checks, in source order. -/
theorem evaluate_reasons_def (cfg : RiskCfg) (sig : RiskSignal) (f : RiskFetch) :
    (evaluate cfg sig f).2 =
      window_reasons cfg f ++ blacklist_reasons cfg (pyUpper (sig.symbol.getD "")) ++
      whitelist_reasons cfg (pyUpper (sig.symbol.getD "")) ++
      concurrency_reasons cfg
        (open_positions
          (portfolio_snapshot cfg.tradier_account_id f.positions_fetch f.orders_fetch).1) ++
      open_orders_reasons cfg
        (portfolio_snapshot cfg.tradier_account_id f.positions_fetch f.orders_fetch).2 ++
      per_symbol_reasons cfg
        (open_positions
          (portfolio_snapshot cfg.tradier_account_id f.positions_fetch f.orders_fetch).1)
        (pyUpper (sig.symbol.getD "")) ++
      notional_reasons cfg sig f ++ cash_reasons cfg f := rfl

theorem evaluate_passed_def (cfg : RiskCfg) (sig : RiskSignal) (f : RiskFetch) :
    (evaluate cfg sig f).1 = (evaluate cfg sig f).2.isEmpty := rfl

theorem notional_reasons_concrete_block :
    notional_reasons rcfgFix sig600 rfFix1 = [Reason.notionalExceeds 600 500] := by
  norm_num [notional_reasons, resolved_cap, resolved_price, rcfgFix, rfFix1, sig600]

theorem notional_reasons_concrete_pass :
    notional_reasons rcfgFix sig100 rfFix2 = [] := by
  norm_num [notional_reasons, resolved_cap, resolved_price, rcfgFix, rfFix1, rfFix2, sig100]

theorem notional_reasons_concrete_wl :
    notional_reasons rcfgWl sig600 rfFix1 = [Reason.notionalExceeds 600 500] := by
  norm_num [notional_reasons, resolved_cap, resolved_price, rcfgWl, rcfgFix, rfFix1, sig600]

theorem evaluate_rcfgFix_sig600 :
    evaluate rcfgFix sig600 rfFix1 = (false, [Reason.notionalExceeds 600 500]) := by
  have h1 : window_reasons rcfgFix rfFix1 = [] := by decide
  have h2 : blacklist_reasons rcfgFix (pyUpper ((sig600.symbol).getD "")) = [] := by decide
  have h3 : whitelist_reasons rcfgFix (pyUpper ((sig600.symbol).getD "")) = [] := by decide
  have h4 : concurrency_reasons rcfgFix
      (open_positions (portfolio_snapshot rcfgFix.tradier_account_id rfFix1.positions_fetch
        rfFix1.orders_fetch).1) = [] := by decide
  have h5 : open_orders_reasons rcfgFix
      (portfolio_snapshot rcfgFix.tradier_account_id rfFix1.positions_fetch
        rfFix1.orders_fetch).2 = [] := by decide
  have h6 : per_symbol_reasons rcfgFix
      (open_positions (portfolio_snapshot rcfgFix.tradier_account_id rfFix1.positions_fetch
        rfFix1.orders_fetch).1) (pyUpper ((sig600.symbol).getD "")) = [] := by decide
  have h8 : cash_reasons rcfgFix rfFix1 = [] := by decide
  have e2 : (evaluate rcfgFix sig600 rfFix1).2 = [Reason.notionalExceeds 600 500] := by
    rw [evaluate_reasons_def, h1, h2, h3, h4, h5, h6, notional_reasons_concrete_block, h8]
    rfl
  have e1 : (evaluate rcfgFix sig600 rfFix1).1 = false := by
    rw [evaluate_passed_def, e2]
    rfl
  exact Prod.ext e1 e2

theorem evaluate_rcfgFix_sig100 :
    evaluate rcfgFix sig100 rfFix2 = (true, []) := by
  have h1 : window_reasons rcfgFix rfFix2 = [] := by decide
  have h2 : blacklist_reasons rcfgFix (pyUpper ((sig100.symbol).getD "")) = [] := by decide
  have h3 : whitelist_reasons rcfgFix (pyUpper ((sig100.symbol).getD "")) = [] := by decide
  have h4 : concurrency_reasons rcfgFix
      (open_positions (portfolio_snapshot rcfgFix.tradier_account_id rfFix2.positions_fetch
        rfFix2.orders_fetch).1) = [] := by decide
  have h5 : open_orders_reasons rcfgFix
      (portfolio_snapshot rcfgFix.tradier_account_id rfFix2.positions_fetch
        rfFix2.orders_fetch).2 = [] := by decide
  have h6 : per_symbol_reasons rcfgFix
      (open_positions (portfolio_snapshot rcfgFix.tradier_account_id rfFix2.positions_fetch
        rfFix2.orders_fetch).1) (pyUpper ((sig100.symbol).getD "")) = [] := by decide
  have h8 : cash_reasons rcfgFix rfFix2 = [] := by decide
  have e2 : (evaluate rcfgFix sig100 rfFix2).2 = [] := by
    rw [evaluate_reasons_def, h1, h2, h3, h4, h5, h6, notional_reasons_concrete_pass, h8]
    rfl
  have e1 : (evaluate rcfgFix sig100 rfFix2).1 = true := by
    rw [evaluate_passed_def, e2]
    rfl
  exact Prod.ext e1 e2

theorem evaluate_rcfgWl_sig600 :
    evaluate rcfgWl sig600 rfFix1 =
      (false, [Reason.notWhitelisted, Reason.notionalExceeds 600 500]) := by
  have h1 : window_reasons rcfgWl rfFix1 = [] := by decide
  have h2 : blacklist_reasons rcfgWl (pyUpper ((sig600.symbol).getD "")) = [] := by decide
  have h3 : whitelist_reasons rcfgWl (pyUpper ((sig600.symbol).getD "")) =
      [Reason.notWhitelisted] := by decide
  have h4 : concurrency_reasons rcfgWl
      (open_positions (portfolio_snapshot rcfgWl.tradier_account_id rfFix1.positions_fetch
        rfFix1.orders_fetch).1) = [] := by decide
  have h5 : open_orders_reasons rcfgWl
      (portfolio_snapshot rcfgWl.tradier_account_id rfFix1.positions_fetch
        rfFix1.orders_fetch).2 = [] := by decide
  have h6 : per_symbol_reasons rcfgWl
      (open_positions (portfolio_snapshot rcfgWl.tradier_account_id rfFix1.positions_fetch
        rfFix1.orders_fetch).1) (pyUpper ((sig600.symbol).getD "")) = [] := by decide
  have h8 : cash_reasons rcfgWl rfFix1 = [] := by decide
  have e2 : (evaluate rcfgWl sig600 rfFix1).2 =
      [Reason.notWhitelisted, Reason.notionalExceeds 600 500] := by
    rw [evaluate_reasons_def, h1, h2, h3, h4, h5, h6, notional_reasons_concrete_wl, h8]
    rfl
  have e1 : (evaluate rcfgWl sig600 rfFix1).1 = false := by
    rw [evaluate_passed_def, e2]
    rfl
  exact Prod.ext e1 e2

/-! ## C3 -/

/-- C3 counterexample: with `RISK_MAX_CONCURRENT=0` configured, a
portfolio-fetch exception still yields a concurrency block reason — the
failed fetch is evaluated as an empty portfolio, and `0 ≥ 0` fires the
check — so a fetch failure is not unconditionally "check skipped". -/
theorem evaluate_fetch_failure_cap_zero_blocks :
    evaluate rcfgCapZero sig600 rfFixFail = (false, [Reason.maxConcurrent 0]) := by decide

/-- C3 (amended): provided the concurrency caps are positive (as they
are by default), exceptions in the portfolio, price and balance fetches
leave the reasons list exactly what the window, blacklist and whitelist
checks produce — no soft check (concurrency, per-symbol, notional, cash)
contributes a reason — and when those three checks pass, `passed` is
true despite every fetch failing.  With a nonpositive cap the
corresponding concurrency check still fires against the empty portfolio
the failure degrades to. -/
theorem evaluate_fetch_failure_soft_checks_skip (cfg : RiskCfg) (sig : RiskSignal)
    (f : RiskFetch)
    (hc1 : 0 < cfg.risk_max_concurrent) (hc2 : 0 < cfg.risk_max_open_orders)
    (hpos : f.positions_fetch = .error ()) (hord : f.orders_fetch = .error ())
    (hlt : f.last_trade = Option.none) (hq : f.quote_last = Option.none)
    (hbal : f.balance_fetch = .error ()) :
    (evaluate cfg sig f).2 =
      window_reasons cfg f ++ blacklist_reasons cfg (pyUpper (sig.symbol.getD "")) ++
        whitelist_reasons cfg (pyUpper (sig.symbol.getD "")) ∧
    (window_reasons cfg f = [] → blacklist_reasons cfg (pyUpper (sig.symbol.getD "")) = [] →
      whitelist_reasons cfg (pyUpper (sig.symbol.getD "")) = [] →
      (evaluate cfg sig f).1 = true) := by
  have hsnap : portfolio_snapshot cfg.tradier_account_id f.positions_fetch f.orders_fetch
      = ([], 0) := by
    rw [hpos, hord]; unfold portfolio_snapshot; split <;> rfl
  have hconc : concurrency_reasons cfg (open_positions []) = [] := by
    unfold concurrency_reasons open_positions
    simp only [List.filter_nil, List.length_nil]
    rw [if_neg (by omega)]
  have hoo : open_orders_reasons cfg 0 = [] := by
    unfold open_orders_reasons
    rw [if_neg (by omega)]
  have hps : per_symbol_reasons cfg (open_positions []) (pyUpper (sig.symbol.getD "")) = [] := by
    unfold per_symbol_reasons open_positions
    rcases cfg.risk_max_positions_per_symbol with _ | m
    · rfl
    · simp only [List.filter_nil, List.length_nil]
      rw [if_neg (by omega)]
  have hrp : resolved_price f = Option.none := by
    unfold resolved_price; rw [hlt, hq]
  have hnotl : notional_reasons cfg sig f = [] := by
    rcases hcap : resolved_cap cfg f with _ | cap <;> simp [notional_reasons, hcap, hrp]
  have hcash : cash_reasons cfg f = [] := by
    rcases hmc : cfg.min_cash_usd with _ | mc <;> simp [cash_reasons, hmc, hbal]
  have hmain : (evaluate cfg sig f).2 =
      window_reasons cfg f ++ blacklist_reasons cfg (pyUpper (sig.symbol.getD "")) ++
        whitelist_reasons cfg (pyUpper (sig.symbol.getD "")) := by
    rw [evaluate_reasons_def]
    simp only [hsnap, hconc, hoo, hps, hnotl, hcash, List.append_nil]
  refine ⟨hmain, ?_⟩
  intro hw hb hwl
  have h0 : (evaluate cfg sig f).2 = [] := by rw [hmain, hw, hb, hwl]; rfl
  rw [evaluate_passed_def, h0]
  rfl

/-- C3 witness: the theorem applied at the benign configuration with all
fetches failing. -/
theorem evaluate_fetch_failure_soft_checks_skip_witness :
    (evaluate rcfgFix sig600 rfFixFail).2 =
      window_reasons rcfgFix rfFixFail ++
        blacklist_reasons rcfgFix (pyUpper ((sig600.symbol).getD "")) ++
        whitelist_reasons rcfgFix (pyUpper ((sig600.symbol).getD "")) ∧
    (window_reasons rcfgFix rfFixFail = [] →
      blacklist_reasons rcfgFix (pyUpper ((sig600.symbol).getD "")) = [] →
      whitelist_reasons rcfgFix (pyUpper ((sig600.symbol).getD "")) = [] →
      (evaluate rcfgFix sig600 rfFixFail).1 = true) :=
  evaluate_fetch_failure_soft_checks_skip rcfgFix sig600 rfFixFail
    (by decide) (by decide) rfl rfl rfl rfl rfl

/-! ## C4 -/

/-- C4: `evaluate` passes exactly when the accumulated reasons list is
empty; a notional reason is present exactly when a cap is configured,
the resolved price is truthy and `price * qty` strictly exceeds the cap;
concretely, cap 500 with price 1 and qty 600 blocks with the notional
reason, price 2 and qty 100 passes with empty reasons, and a whitelist
violation and a notional violation are reported together (no
short-circuit). -/
theorem evaluate_pass_iff_empty_and_notional_cap :
    (∀ (cfg : RiskCfg) (sig : RiskSignal) (f : RiskFetch),
      (evaluate cfg sig f).1 = true ↔ (evaluate cfg sig f).2 = []) ∧
    (∀ (cfg : RiskCfg) (sig : RiskSignal) (f : RiskFetch) (n c : ℚ),
      Reason.notionalExceeds n c ∈ (evaluate cfg sig f).2 ↔
        (resolved_cap cfg f = some c ∧ ∃ p, resolved_price f = some p ∧ p ≠ 0 ∧
          n = p * ((sig.qty.getD 0 : Int) : ℚ) ∧ n > c)) ∧
    evaluate rcfgFix sig600 rfFix1 = (false, [Reason.notionalExceeds 600 500]) ∧
    evaluate rcfgFix sig100 rfFix2 = (true, []) ∧
    evaluate rcfgWl sig600 rfFix1 =
      (false, [Reason.notWhitelisted, Reason.notionalExceeds 600 500]) := by
  refine ⟨?_, ?_, evaluate_rcfgFix_sig600, evaluate_rcfgFix_sig100, evaluate_rcfgWl_sig600⟩
  · intro cfg sig f
    rw [evaluate_passed_def, List.isEmpty_iff]
  · intro cfg sig f n c
    rw [evaluate_reasons_def, ← mem_notional_reasons_iff]
    simp [List.mem_append, notional_not_mem_window, notional_not_mem_blacklist,
      notional_not_mem_whitelist, notional_not_mem_concurrency, notional_not_mem_open_orders,
      notional_not_mem_per_symbol, notional_not_mem_cash]

/-- C4 witness: the pass-iff component at the concrete passing input. -/
theorem evaluate_pass_iff_empty_and_notional_cap_witness :
    (evaluate rcfgFix sig100 rfFix2).1 = true ↔ (evaluate rcfgFix sig100 rfFix2).2 = [] :=
  evaluate_pass_iff_empty_and_notional_cap.1 rcfgFix sig100 rfFix2


/-! ## C5 -/

/-- C5 counterexample: with an ATR that is present but exactly 0 (a
constant-price window) all gating conditions pass and one buy signal is
emitted, yet its `stop_price` metadata is null — `if snapshot.atr14`
treats the available value 0.0 as missing. -/
theorem vwap_reclaim_zero_atr_null_stop :
    ((vwap_reclaim_evaluate pcfgFix snapAtrZero ctxEmpty 0 960).1.map
      (fun s => dictGet s.metadata "stop_price")) = [some PyVal.none] ∧
    snapAtrZero.atr14 = some 0 := ⟨by decide, rfl⟩

/-- C5 (amended): under the reclaim conditions (prev_close < vwap <
last, EMA/slope filters not blocking, rvol at or above the minimum), a
present and *nonzero* ATR, an open cooldown and no power-hour
restriction, exactly one buy signal is emitted with
stop = last − stopMult·ATR, target1 = last + t1Mult·ATR and
target2 = last + t2Mult·ATR all non-null, and the cooldown is marked;
and whenever relative volume is present and below the configured
minimum, no signal is emitted and the context is untouched. -/
theorem vwap_reclaim_emits_one_gated_buy :
    (∀ (cfg : PlaysCfg) (snapshot : Snapshot) (ctx : Ctx) (fb net : ℚ)
        (last prev vwap a ts rv : ℚ),
      snapshot.last_price = some last → snapshot.prev_close = some prev →
      snapshot.vwap = some vwap → prev < vwap → last > vwap →
      ema_filter_blocks snapshot = false → slope_blocks snapshot = false →
      snapshot.relative_volume = some rv → cfg.vwap_min_rvol ≤ rv →
      snapshot.atr14 = some a → a ≠ 0 → snapshot.as_of = some ts →
      can_emit ctx "VWAP_RECLAIM" snapshot.symbol ts (some cfg.vwap_cooldown_sec) = true →
      ¬(parseSymbolSet cfg.power_hour_symbols ≠ [] ∧
          pyUpper snapshot.symbol ∈ parseSymbolSet cfg.power_hour_symbols ∧
          net < (((parseHM cfg.power_hour_start).getD 900 : Nat) : ℚ)) →
      ∃ md, vwap_reclaim_evaluate cfg snapshot ctx fb net =
          ([{ symbol := snapshot.symbol, setup := "VWAP_RECLAIM", side := "buy",
              qty := cfg.default_qty, order_type := "market", metadata := md }],
           mark_emit ctx "VWAP_RECLAIM" snapshot.symbol ts) ∧
        dictGet md "stop_price" = some (.rat (last - cfg.risk_stop_atr_multiplier * a)) ∧
        dictGet md "target1" = some (.rat (last + cfg.target_one_atr_multiplier * a)) ∧
        dictGet md "target2" = some (.rat (last + cfg.target_two_atr_multiplier * a))) ∧
    (∀ (cfg : PlaysCfg) (snapshot : Snapshot) (ctx : Ctx) (fb net rv : ℚ),
      snapshot.relative_volume = some rv → rv < cfg.vwap_min_rvol →
      vwap_reclaim_evaluate cfg snapshot ctx fb net = ([], ctx)) := by
  constructor
  · intro cfg snapshot ctx fb net last prev vwap a ts rv
    intro hlast hprev hvwap hpv hlv hema hslope hrv hrvmin hatr ha hts hcool hph
    have hrvb : rvol_blocks cfg snapshot = false := by
      rw [rvol_blocks, hrv]
      exact decide_eq_false (not_lt.mpr hrvmin)
    unfold vwap_reclaim_evaluate
    rw [hlast, hprev, hvwap]
    simp only [hema, hslope, hrvb, hatr, hts, Bool.false_eq_true, if_false]
    rw [if_neg (not_not_intro ⟨hpv, hlv⟩)]
    rw [hcool]
    simp only [Bool.true_eq_false, if_false]
    rw [if_neg hph]
    simp only [if_neg ha]
    exact ⟨_, rfl, rfl, rfl, rfl⟩
  · intro cfg snapshot ctx fb net rv hrv hlt
    have hrvb : rvol_blocks cfg snapshot = true := by
      rw [rvol_blocks, hrv]
      exact decide_eq_true hlt
    unfold vwap_reclaim_evaluate
    rcases h1 : snapshot.last_price with _ | last
    · rfl
    · rcases h2 : snapshot.prev_close with _ | prev
      · rfl
      · rcases h3 : snapshot.vwap with _ | vwap
        · rfl
        · simp only [hrvb]
          split_ifs <;> rfl

/-- C5 witness: the amended theorem at the concrete reclaim snapshot. -/
theorem vwap_reclaim_emits_one_gated_buy_witness :
    ∃ md, vwap_reclaim_evaluate pcfgFix snapFix ctxEmpty 0 960 =
        ([{ symbol := snapFix.symbol, setup := "VWAP_RECLAIM", side := "buy",
            qty := pcfgFix.default_qty, order_type := "market", metadata := md }],
         mark_emit ctxEmpty "VWAP_RECLAIM" snapFix.symbol 1000) ∧
      dictGet md "stop_price" = some (.rat (101 - pcfgFix.risk_stop_atr_multiplier * 1)) ∧
      dictGet md "target1" = some (.rat (101 + pcfgFix.target_one_atr_multiplier * 1)) ∧
      dictGet md "target2" = some (.rat (101 + pcfgFix.target_two_atr_multiplier * 1)) :=
  vwap_reclaim_emits_one_gated_buy.1 pcfgFix snapFix ctxEmpty 0 960 101 99 100 1 1000 2
    rfl rfl rfl (by decide) (by decide) (by decide) (by decide) rfl (by decide) rfl
    (by decide) rfl (by decide) (by decide)

/-! ## C8 -/

theorem string_append_cancel (a b c : String) (h : a ++ c = b ++ c) : a = b := by
  have hd := congrArg String.data h
  simp only [String.data_append] at hd
  exact String.ext (List.append_left_injective c.data hd)

theorem ctx_key_inj_setup (s1 s2 sym : String) (h : ctx_key s1 sym = ctx_key s2 sym) :
    s1 = s2 := by
  unfold ctx_key at h
  exact string_append_cancel _ _ _ (string_append_cancel _ _ _ h)

/-- C8: after `mark_emit(setup, symbol, t0)`, `can_emit(setup, symbol,
t0 + d, cooldown)` with a positive cooldown returns exactly whether
`cooldown ≤ d` (so false for 0 ≤ d < cooldown and true for
d ≥ cooldown), and `can_emit` for any other setup on the same symbol is
unchanged by the `mark_emit` at every timestamp and cooldown. -/
theorem strategy_context_cooldown_window (ls : Ctx) (setup setup2 symbol : String)
    (t0 d t : ℚ) (c : Int) (c2 : Option Int) (hc : 0 < c) (hne : setup2 ≠ setup) :
    (can_emit (mark_emit ls setup symbol t0) setup symbol (t0 + d) (some c) =
      decide ((c : ℚ) ≤ d)) ∧
    can_emit (mark_emit ls setup symbol t0) setup2 symbol t c2 =
      can_emit ls setup2 symbol t c2 := by
  constructor
  · unfold can_emit mark_emit
    dsimp only
    rw [if_neg (not_le.mpr hc), if_pos rfl]
    rw [decide_eq_decide]
    rw [ge_iff_le, add_sub_cancel_left]
  · unfold can_emit mark_emit
    rcases c2 with _ | c2
    · rfl
    · dsimp only
      split
      · rfl
      · rw [if_neg (fun hkey => hne (ctx_key_inj_setup _ _ _ hkey))]

/-- C8 witness: mark VWAP_RECLAIM on SPY at t0 = 0; one second later it
is still cooling down (900 s cooldown) while SIGMA_FADE on SPY reads
exactly as before the mark. -/
theorem strategy_context_cooldown_window_witness :
    (can_emit (mark_emit ctxEmpty "VWAP_RECLAIM" "SPY" 0) "VWAP_RECLAIM" "SPY" (0 + 1)
        (some 900) = decide (((900 : Int) : ℚ) ≤ 1)) ∧
    can_emit (mark_emit ctxEmpty "VWAP_RECLAIM" "SPY" 0) "SIGMA_FADE" "SPY" 5 (some 900) =
      can_emit ctxEmpty "SIGMA_FADE" "SPY" 5 (some 900) :=
  strategy_context_cooldown_window ctxEmpty "VWAP_RECLAIM" "SIGMA_FADE" "SPY" 0 1 5 900
    (some 900) (by decide) (by decide)

section PassLemmas

variable (cfg : PassCfg) (positions : List PortfolioPosition)
  (priceOf : String → Option ℚ) (now : ℚ)

theorem partial_exit_step_orders (acc : List (String × TradeState) × List ExitOrder)
    (item : String × TradeState) :
    (partial_exit_step cfg positions priceOf now acc item).2 =
      acc.2 ++ (process_item cfg positions priceOf now item.1 item.2).2 := rfl

theorem foldl_step_orders (items : List (String × TradeState)) :
    ∀ acc : List (String × TradeState) × List ExitOrder,
      (items.foldl (partial_exit_step cfg positions priceOf now) acc).2 =
        acc.2 ++ items.flatMap (fun it => (process_item cfg positions priceOf now it.1 it.2).2) := by
  induction items with
  | nil => intro acc; simp
  | cons it rest ih =>
    intro acc
    rw [List.foldl_cons, ih, partial_exit_step_orders]
    simp [List.flatMap_cons, List.append_assoc]

theorem partial_exit_pass_orders (trades : List (String × TradeState)) :
    (partial_exit_pass cfg positions priceOf now trades).2 =
      trades.flatMap (fun it => (process_item cfg positions priceOf now it.1 it.2).2) := by
  unfold partial_exit_pass
  split
  · rename_i h
    rw [List.isEmpty_iff] at h
    subst h
    rfl
  · rw [foldl_step_orders]
    rfl

theorem process_item_orders_symbol (k : String) (s : TradeState) :
    ∀ o ∈ (process_item cfg positions priceOf now k s).2, o.symbol = pyUpper k := by
  intro o ho
  unfold process_item at ho
  dsimp only at ho
  split at ho
  · simp at ho
  · split at ho
    · simp at ho
    · unfold _execute_exit_order at ho
      split at ho <;> split_ifs at ho <;> simp_all <;> aesop

end PassLemmas

section PassLemmas2

variable (cfg : PassCfg) (positions : List PortfolioPosition)
  (priceOf : String → Option ℚ) (now : ℚ)

theorem process_item_no_second_partial_order (k : String) (s : TradeState)
    (hdone : s.partial_exited = true) :
    ∀ o ∈ (process_item cfg positions priceOf now k s).2, o.reason ≠ "partial_target" := by
  intro o ho
  unfold process_item at ho
  dsimp only at ho
  split at ho
  · simp at ho
  · split at ho
    · simp at ho
    · simp only [hdone, Bool.not_true, Bool.false_and] at ho
      unfold _execute_exit_order at ho
      split at ho <;> split_ifs at ho <;> simp_all

theorem process_item_stop_mono (k : String) (s : TradeState) (s1 : TradeState)
    (hupd : (process_item cfg positions priceOf now k s).1.updated = some s1) :
    ∀ st, s.stop_price = some st → ∃ st2, s1.stop_price = some st2 ∧ st ≤ st2 := by
  intro st hst
  have hfin : ∀ s2 : TradeState,
      s2 = { s with partial_exited := true,
                    stop_price := match s.entry_price with
                      | some e => some (max (s.stop_price.getD 0) e)
                      | Option.none => s.stop_price } →
      ∃ st2, s2.stop_price = some st2 ∧ st ≤ st2 := by
    rintro s2 rfl
    dsimp only
    rcases s.entry_price with _ | e
    · exact ⟨st, hst, le_refl st⟩
    · refine ⟨_, rfl, ?_⟩
      rw [hst]
      simp only [Option.getD_some]
      exact le_max_left st e
  unfold process_item at hupd
  dsimp only at hupd
  split at hupd
  · simp at hupd
  · split at hupd
    · simp at hupd
    · rename_i price hprice
      by_cases hfp : (¬s.partial_exited &&
          (match s.target1 with
           | some t1 => decide (price ≥ t1)
           | Option.none => false)) = true
      · simp only [hfp, if_true] at hupd
        split at hupd
        · dsimp only at hupd
          injection hupd with h
          exact hfin s1 h.symm
        · split at hupd
          · dsimp only at hupd
            injection hupd with h
            exact hfin s1 h.symm
          · dsimp only at hupd
            injection hupd with h
            exact hfin s1 h.symm
      · simp only [hfp, if_false] at hupd
        split at hupd
        · dsimp only at hupd
          exact absurd hupd (by simp)
        · split at hupd
          · dsimp only at hupd
            exact absurd hupd (by simp)
          · dsimp only at hupd
            exact absurd hupd (by simp)

end PassLemmas2

section RegLemmas

theorem process_item_flat_position (cfg : PassCfg) (positions : List PortfolioPosition)
    (priceOf : String → Option ℚ) (now : ℚ) (k : String) (s : TradeState)
    (hdry : cfg.dry_run = false) (hpq : position_qty positions (pyUpper k) ≤ 0) :
    process_item cfg positions priceOf now k s =
      ({ updated := Option.none, removed := true }, []) := by
  unfold process_item
  rw [if_pos ⟨hpq, by simp [hdry]⟩]

theorem registry_lookup_cons (x : String × TradeState) (l : List (String × TradeState))
    (k2 : String) :
    registry_lookup (x :: l) k2 = if x.1 = k2 then some x.2 else registry_lookup l k2 := rfl

theorem registry_set_cons (e : String × TradeState) (rest : List (String × TradeState))
    (k : String) (s1 : TradeState) :
    registry_set (e :: rest) k s1 =
      (if e.1 = k then (k, s1) else e) :: registry_set rest k s1 := rfl

theorem registry_remove_cons (e : String × TradeState) (rest : List (String × TradeState))
    (k : String) :
    registry_remove (e :: rest) k =
      (if e.1 = k then registry_remove rest k else e :: registry_remove rest k) := by
  by_cases h : e.1 = k
  · simp [registry_remove, List.filter_cons, h]
  · simp [registry_remove, List.filter_cons, h]

theorem rlookup_set_self (reg : List (String × TradeState)) (k : String) (s1 : TradeState) :
    registry_lookup (registry_set reg k s1) k = (registry_lookup reg k).map (fun _ => s1) := by
  induction reg with
  | nil => rfl
  | cons e rest ih =>
    rw [registry_set_cons]
    by_cases he : e.1 = k
    · rw [if_pos he, registry_lookup_cons, registry_lookup_cons, if_pos he]
      rw [if_pos rfl]
      rfl
    · rw [if_neg he, registry_lookup_cons, registry_lookup_cons, if_neg he, if_neg he]
      exact ih

theorem rlookup_set_ne (reg : List (String × TradeState)) (k k2 : String) (s1 : TradeState)
    (h : k2 ≠ k) :
    registry_lookup (registry_set reg k s1) k2 = registry_lookup reg k2 := by
  induction reg with
  | nil => rfl
  | cons e rest ih =>
    rw [registry_set_cons]
    by_cases he : e.1 = k
    · rw [if_pos he, registry_lookup_cons, registry_lookup_cons]
      rw [if_neg (show ¬(k, s1).1 = k2 from fun hk => h hk.symm)]
      rw [if_neg (show ¬e.1 = k2 from by rw [he]; exact fun hk => h hk.symm)]
      exact ih
    · rw [if_neg he, registry_lookup_cons, registry_lookup_cons]
      by_cases he2 : e.1 = k2
      · rw [if_pos he2, if_pos he2]
      · rw [if_neg he2, if_neg he2]
        exact ih

theorem rlookup_remove_self (reg : List (String × TradeState)) (k : String) :
    registry_lookup (registry_remove reg k) k = Option.none := by
  induction reg with
  | nil => rfl
  | cons e rest ih =>
    rw [registry_remove_cons]
    by_cases he : e.1 = k
    · rw [if_pos he]
      exact ih
    · rw [if_neg he, registry_lookup_cons, if_neg he]
      exact ih

theorem rlookup_remove_ne (reg : List (String × TradeState)) (k k2 : String) (h : k2 ≠ k) :
    registry_lookup (registry_remove reg k) k2 = registry_lookup reg k2 := by
  induction reg with
  | nil => rfl
  | cons e rest ih =>
    rw [registry_remove_cons]
    by_cases he : e.1 = k
    · rw [if_pos he, registry_lookup_cons]
      rw [if_neg (show ¬e.1 = k2 from by rw [he]; exact fun hk => h hk.symm)]
      exact ih
    · rw [if_neg he, registry_lookup_cons, registry_lookup_cons]
      by_cases he2 : e.1 = k2
      · rw [if_pos he2, if_pos he2]
      · rw [if_neg he2, if_neg he2]
        exact ih

end RegLemmas

section FoldLemmas

variable (cfg : PassCfg) (positions : List PortfolioPosition)
  (priceOf : String → Option ℚ) (now : ℚ)

theorem rlookup_apply_other (reg : List (String × TradeState)) (k k2 : String)
    (eff : ItemEffect) (h1 : k2 ≠ k) (h2 : k2 ≠ pyUpper k) :
    registry_lookup (apply_item_effect reg k eff) k2 = registry_lookup reg k2 := by
  unfold apply_item_effect
  rcases hu : eff.updated with _ | s1 <;> rcases hr : eff.removed with _ | _ <;>
    simp only [hu, hr, Bool.false_eq_true, if_false, if_true]
  · rw [rlookup_remove_ne _ _ _ h2]
  · rw [rlookup_set_ne _ _ _ _ h1]
  · rw [rlookup_remove_ne _ _ _ h2, rlookup_set_ne _ _ _ _ h1]

theorem rlookup_apply_self (reg : List (String × TradeState)) (k : String)
    (eff : ItemEffect) (hk : pyUpper k = k) :
    registry_lookup (apply_item_effect reg k eff) k =
      (if eff.removed = true then Option.none
       else match eff.updated with
         | some s1 => (registry_lookup reg k).map (fun _ => s1)
         | Option.none => registry_lookup reg k) := by
  unfold apply_item_effect
  rcases hu : eff.updated with _ | s1 <;> rcases hr : eff.removed with _ | _ <;>
    simp only [hu, hr, Bool.false_eq_true, if_false, if_true]
  · rw [hk, rlookup_remove_self]
  · rw [rlookup_set_self]
  · rw [hk, rlookup_remove_self]

theorem partial_exit_step_reg (acc : List (String × TradeState) × List ExitOrder)
    (item : String × TradeState) :
    (partial_exit_step cfg positions priceOf now acc item).1 =
      apply_item_effect acc.1 item.1 (process_item cfg positions priceOf now item.1 item.2).1 :=
  rfl

theorem foldl_step_lookup_preserve (items : List (String × TradeState)) (k : String)
    (hne : ∀ it ∈ items, it.1 ≠ k ∧ pyUpper it.1 ≠ k) :
    ∀ acc, registry_lookup
        ((items.foldl (partial_exit_step cfg positions priceOf now) acc).1) k =
      registry_lookup acc.1 k := by
  induction items with
  | nil => intro acc; rfl
  | cons it rest ih =>
    intro acc
    rw [List.foldl_cons]
    rw [ih (fun x hx => hne x (List.mem_cons_of_mem it hx))]
    rw [partial_exit_step_reg]
    have h := hne it (List.mem_cons_self it rest)
    exact rlookup_apply_other _ _ _ _ (Ne.symm h.1) (Ne.symm h.2)

theorem rlookup_of_mem_nodup (l : List (String × TradeState)) (k : String) (s : TradeState)
    (hnodup : (l.map Prod.fst).Nodup) (hmem : (k, s) ∈ l) :
    registry_lookup l k = some s := by
  induction l with
  | nil => cases hmem
  | cons e rest ih =>
    rcases List.mem_cons.mp hmem with heq | hmem2
    · rw [← heq, registry_lookup_cons, if_pos rfl]
    · rw [registry_lookup_cons]
      rw [List.map_cons] at hnodup
      have hnd := List.nodup_cons.mp hnodup
      by_cases he : e.1 = k
      · exfalso
        apply hnd.1
        rw [he]
        exact List.mem_map_of_mem Prod.fst hmem2
      · rw [if_neg he]
        exact ih hnd.2 hmem2

theorem assoc_nodup_eq (l : List (String × TradeState)) (k : String) (a b : TradeState)
    (hnodup : (l.map Prod.fst).Nodup) (ha : (k, a) ∈ l) (hb : (k, b) ∈ l) : a = b := by
  have h1 := rlookup_of_mem_nodup l k a hnodup ha
  have h2 := rlookup_of_mem_nodup l k b hnodup hb
  rw [h1] at h2
  injection h2

theorem fold_lookup_main (items : List (String × TradeState)) (k : String) (s : TradeState)
    (hupper : ∀ it ∈ items, pyUpper it.1 = it.1)
    (hnodup : (items.map Prod.fst).Nodup)
    (hmem : (k, s) ∈ items) :
    ∀ acc, registry_lookup acc.1 k = some s →
      registry_lookup ((items.foldl (partial_exit_step cfg positions priceOf now) acc).1) k =
        (if (process_item cfg positions priceOf now k s).1.removed = true then Option.none
         else some (((process_item cfg positions priceOf now k s).1.updated).getD s)) := by
  induction items with
  | nil => cases hmem
  | cons it rest ih =>
    intro acc hacc
    rw [List.map_cons] at hnodup
    have hnd := List.nodup_cons.mp hnodup
    rcases List.mem_cons.mp hmem with heq | hmem2
    · have hkit : it.1 = k := by rw [← heq]
      have hks : it.2 = s := by rw [← heq]
      have hrest : ∀ it2 ∈ rest, it2.1 ≠ k ∧ pyUpper it2.1 ≠ k := by
        intro it2 h2
        have hne : it2.1 ≠ it.1 := by
          intro hcontra
          apply hnd.1
          rw [← hcontra]
          exact List.mem_map_of_mem Prod.fst h2
        have hu2 := hupper it2 (List.mem_cons_of_mem it h2)
        rw [hkit] at hne
        exact ⟨hne, by rwa [hu2]⟩
      rw [List.foldl_cons, foldl_step_lookup_preserve cfg positions priceOf now rest k hrest]
      rw [partial_exit_step_reg]
      have hk : pyUpper it.1 = it.1 := hupper it (List.mem_cons_self it rest)
      rw [hkit] at hk
      rw [hkit, hks]
      rw [rlookup_apply_self _ _ _ hk, hacc]
      rcases (process_item cfg positions priceOf now k s).1.removed with _ | _
      · simp only [Bool.false_eq_true, if_false]
        rcases (process_item cfg positions priceOf now k s).1.updated with _ | s1 <;> rfl
      · rfl
    · by_cases hik : it.1 = k
      · exfalso
        apply hnd.1
        rw [hik]
        exact List.mem_map_of_mem Prod.fst hmem2
      · rw [List.foldl_cons]
        apply ih (fun x hx => hupper x (List.mem_cons_of_mem it hx)) hnd.2 hmem2
        rw [partial_exit_step_reg]
        have hu := hupper it (List.mem_cons_self it rest)
        rw [rlookup_apply_other _ _ _ _ (Ne.symm hik) (by rw [hu]; exact Ne.symm hik)]
        exact hacc

theorem partial_exit_pass_lookup (trades : List (String × TradeState)) (k : String)
    (s : TradeState)
    (hupper : ∀ it ∈ trades, pyUpper it.1 = it.1)
    (hnodup : (trades.map Prod.fst).Nodup)
    (hmem : (k, s) ∈ trades) :
    registry_lookup (partial_exit_pass cfg positions priceOf now trades).1 k =
      (if (process_item cfg positions priceOf now k s).1.removed = true then Option.none
       else some (((process_item cfg positions priceOf now k s).1.updated).getD s)) := by
  unfold partial_exit_pass
  split
  · rename_i h
    rw [List.isEmpty_iff] at h
    subst h
    cases hmem
  · exact fold_lookup_main cfg positions priceOf now trades k s hupper hnodup hmem
      (trades, []) (rlookup_of_mem_nodup trades k s hnodup hmem)

end FoldLemmas

/-- C6: over a pass of `partial_exit_pass` on a registry with
uppercase, unique keys (the invariant `register_trade` maintains), a
tracked symbol whose `partial_exited` flag is already true never gets a
second `partial_target` sell order, and for every tracked symbol still
in the registry after the pass the stop price never decreases (when a
partial fires it becomes `max(previous stop or 0, entry)`). -/
theorem partial_exit_no_repeat_and_stop_ratchet (cfg : PassCfg) (positions : List PortfolioPosition)
    (priceOf : String → Option ℚ) (now : ℚ) (trades : List (String × TradeState))
    (hupper : ∀ it ∈ trades, pyUpper it.1 = it.1)
    (hnodup : (trades.map Prod.fst).Nodup) :
    (∀ k s, (k, s) ∈ trades → s.partial_exited = true →
      ∀ o ∈ (partial_exit_pass cfg positions priceOf now trades).2,
        o.symbol = k → o.reason ≠ "partial_target")
    ∧ (∀ k s, (k, s) ∈ trades → ∀ s2,
        registry_lookup (partial_exit_pass cfg positions priceOf now trades).1 k = some s2 →
        ∀ st, s.stop_price = some st → ∃ st2, s2.stop_price = some st2 ∧ st ≤ st2) := by
  constructor
  · intro k s hmem hdone o ho hsym
    rw [partial_exit_pass_orders] at ho
    rcases List.mem_flatMap.mp ho with ⟨it, hit, hoit⟩
    have hos := process_item_orders_symbol cfg positions priceOf now it.1 it.2 o hoit
    have hu := hupper it hit
    have hik : it.1 = k := by rw [← hu, ← hos, hsym]
    have hits : it.2 = s := by
      apply assoc_nodup_eq trades k it.2 s hnodup _ hmem
      rw [← hik]
      exact hit
    apply process_item_no_second_partial_order cfg positions priceOf now it.1 it.2 _ o hoit
    rw [hits]
    exact hdone
  · intro k s hmem s2 hlook st hst
    rw [partial_exit_pass_lookup cfg positions priceOf now trades k s hupper hnodup hmem]
      at hlook
    by_cases hrem : (process_item cfg positions priceOf now k s).1.removed = true
    · rw [if_pos hrem] at hlook
      cases hlook
    · rw [if_neg hrem] at hlook
      rcases hupd : (process_item cfg positions priceOf now k s).1.updated with _ | s1
      · rw [hupd] at hlook
        simp only [Option.getD_none] at hlook
        injection hlook with hlook
        subst hlook
        exact ⟨st, hst, le_refl st⟩
      · rw [hupd] at hlook
        simp only [Option.getD_some] at hlook
        injection hlook with hlook
        subst hlook
        exact process_item_stop_mono cfg positions priceOf now k s s1 hupd st hst

/-- C7: outside dry-run, a tracked symbol whose broker-reported
position quantity is zero or less is removed from the registry by the
pass, and no exit order for that symbol is submitted anywhere in the
pass. -/
theorem partial_exit_flat_position_cleanup (cfg : PassCfg) (positions : List PortfolioPosition)
    (priceOf : String → Option ℚ) (now : ℚ) (trades : List (String × TradeState))
    (hupper : ∀ it ∈ trades, pyUpper it.1 = it.1)
    (hnodup : (trades.map Prod.fst).Nodup)
    (hdry : cfg.dry_run = false)
    (k : String) (s : TradeState) (hmem : (k, s) ∈ trades)
    (hpq : position_qty positions k ≤ 0) :
    registry_lookup (partial_exit_pass cfg positions priceOf now trades).1 k = Option.none ∧
    ∀ o ∈ (partial_exit_pass cfg positions priceOf now trades).2, o.symbol ≠ k := by
  have hk : pyUpper k = k := hupper (k, s) hmem
  have hpq2 : position_qty positions (pyUpper k) ≤ 0 := by rwa [hk]
  have hpi := process_item_flat_position cfg positions priceOf now k s hdry hpq2
  constructor
  · rw [partial_exit_pass_lookup cfg positions priceOf now trades k s hupper hnodup hmem]
    rw [hpi]
    rfl
  · intro o ho
    rw [partial_exit_pass_orders] at ho
    rcases List.mem_flatMap.mp ho with ⟨it, hit, hoit⟩
    have hos := process_item_orders_symbol cfg positions priceOf now it.1 it.2 o hoit
    have hu := hupper it hit
    intro hsym
    have hik : it.1 = k := by rw [← hu, ← hos, hsym]
    have hits : it.2 = s := by
      apply assoc_nodup_eq trades k it.2 s hnodup _ hmem
      rw [← hik]
      exact hit
    rw [show it = (it.1, it.2) from rfl, hik, hits, hpi] at hoit
    cases hoit

/-- C6 witness: one tracked AAPL trade with the partial already taken,
price 103 at or above target1 102. -/
theorem partial_exit_no_repeat_and_stop_ratchet_witness :
    (∀ k s, (k, s) ∈ [("AAPL", tradeFixDone)] → s.partial_exited = true →
      ∀ o ∈ (partial_exit_pass passCfgLive posAAPL (fun _ => some 103) 1000
          [("AAPL", tradeFixDone)]).2,
        o.symbol = k → o.reason ≠ "partial_target")
    ∧ (∀ k s, (k, s) ∈ [("AAPL", tradeFixDone)] → ∀ s2,
        registry_lookup (partial_exit_pass passCfgLive posAAPL (fun _ => some 103) 1000
          [("AAPL", tradeFixDone)]).1 k = some s2 →
        ∀ st, s.stop_price = some st → ∃ st2, s2.stop_price = some st2 ∧ st ≤ st2) :=
  partial_exit_no_repeat_and_stop_ratchet passCfgLive posAAPL (fun _ => some 103) 1000 [("AAPL", tradeFixDone)]
    (by decide) (by decide)

/-- C7 witness: live mode with an empty broker portfolio and one
tracked AAPL trade. -/
theorem partial_exit_flat_position_cleanup_witness :
    registry_lookup (partial_exit_pass passCfgLive [] (fun _ => some 103) 1000
      [("AAPL", tradeFixFresh)]).1 "AAPL" = Option.none ∧
    ∀ o ∈ (partial_exit_pass passCfgLive [] (fun _ => some 103) 1000
      [("AAPL", tradeFixFresh)]).2, o.symbol ≠ "AAPL" :=
  partial_exit_flat_position_cleanup passCfgLive [] (fun _ => some 103) 1000 [("AAPL", tradeFixFresh)]
    (by decide) (by decide) rfl "AAPL" tradeFixFresh (by decide) (by decide)

end AutoTrader
